import Mathlib

/-
Shallow embedding of the whatsapp_monitor repository.

The repository has two source files:
  * `whatsapp-client.js` — the `WhatsAppClient` adapter class wrapping the
    external `whatsapp-web.js` automation client; and
  * `server.js` — the Express HTTP layer.

Adapter methods are `async` and throw on failure; they are embedded as pure
functions returning `Except String α`.  The external library is modelled by
the data stored in the `WAClient` state (its chat list, contact list and
client info) plus explicit function parameters for the one library call whose
outcome matters to a claim (`chat.sendSeen()`).  A chat's message history is
stored most-recent-first, so the library's `chat.fetchMessages({limit})`
(the latest `limit` messages) is `List.take limit`.
-/

namespace WhatsappMonitor

/-- A message, as used by the adapter and routes.  `body` is `none` when the
underlying JS field is `undefined`/`null` (e.g. some media messages). -/
structure Message where
  id : String
  body : Option String
  timestamp : Nat
  fromMe : Bool
deriving Repr, DecidableEq

/-- A chat.  `id` stands for `chat.id._serialized`; `messages` is the chat's
history, most recent first. -/
structure Chat where
  id : String
  name : String
  isGroup : Bool
  unreadCount : Nat
  messages : List Message
  lastMessage : Option Message
deriving Repr, DecidableEq

/-- Library call `chat.fetchMessages({ limit })`: the latest `limit` messages
of the chat (all of them when the history is shorter). -/
def Chat.fetchMessages (chat : Chat) (limit : Nat) : List Message :=
  chat.messages.take limit

/-- A contact as exposed by the library. -/
structure Contact where
  id : String
  number : String
  name : String
  pushname : String
  isMyContact : Bool
  isBlocked : Bool
  isWAContact : Bool
deriving Repr, DecidableEq

/-- `client.info`, set when the `ready` event fires. -/
structure ClientInfo where
  pushname : String
  widUser : String
  platform : String
  widSerialized : String
deriving Repr, DecidableEq

/-- State of a `WhatsAppClient` instance: the `isReady` flag, the data the
external library would return, the optional `clientInfo` and the last QR
code. -/
structure WAClient where
  isReady : Bool
  chats : List Chat
  contacts : List Contact
  clientInfo : Option ClientInfo
  qrCode : Option String
deriving Repr, DecidableEq

/-- The error message thrown by every readiness check in the adapter. -/
def notReadyErr : String := "Client is not ready"

/-- `getChats()`: throws when not ready, otherwise returns all chats from the
library. -/
def getChats (c : WAClient) : Except String (List Chat) :=
  if !c.isReady then .error notReadyErr
  else .ok c.chats

/-- `getChatById(chatId)`: throws when not ready, otherwise delegates to the
library; the library lookup is modelled as a search of the chat list, failing
when the id is unknown. -/
def getChatById (c : WAClient) (chatId : String) : Except String Chat :=
  if !c.isReady then .error notReadyErr
  else
    match c.chats.find? (fun chat => chat.id == chatId) with
    | some chat => .ok chat
    | none => .error "Chat not found"

/-- `getUnreadChats()`: all chats with `unreadCount > 0`. -/
def getUnreadChats (c : WAClient) : Except String (List Chat) := do
  let chats ← getChats c
  return chats.filter (fun chat => chat.unreadCount > 0)

/-- One element of the `getAllUnreadMessages()` result array. -/
structure UnreadEntry where
  chatId : String
  chatName : String
  isGroup : Bool
  unreadCount : Nat
  messages : List Message
deriving Repr, DecidableEq

/-- The `for` loop of `getAllUnreadMessages()`: pushes one entry per unread
chat whose filtered message list is non-empty onto the accumulator. -/
def getAllUnreadMessagesLoop : List Chat → List UnreadEntry → List UnreadEntry
  | [], acc => acc
  | chat :: rest, acc =>
    if chat.unreadCount > 0 then
      let messages := chat.fetchMessages chat.unreadCount
      let unreadMessages := messages.filter (fun msg => !msg.fromMe)
      if unreadMessages.length > 0 then
        getAllUnreadMessagesLoop rest
          (acc ++ [⟨chat.id, chat.name, chat.isGroup, unreadMessages.length, unreadMessages⟩])
      else
        getAllUnreadMessagesLoop rest acc
    else
      getAllUnreadMessagesLoop rest acc

/-- `getAllUnreadMessages()`. -/
def getAllUnreadMessages (c : WAClient) : Except String (List UnreadEntry) := do
  let chats ← getChats c
  return getAllUnreadMessagesLoop chats []

/-- `getMessages(chatId, limit)`. -/
def getMessages (c : WAClient) (chatId : String) (limit : Nat) :
    Except String (List Message) := do
  let chat ← getChatById c chatId
  return chat.fetchMessages limit

/-- `getUnreadMessagesFromChat(chatId)`. -/
def getUnreadMessagesFromChat (c : WAClient) (chatId : String) :
    Except String (List Message) := do
  let chat ← getChatById c chatId
  if chat.unreadCount = 0 then
    return []
  else
    return (chat.fetchMessages chat.unreadCount).filter (fun msg => !msg.fromMe)

/-- Result of `markChatAsRead`. -/
structure MarkReadResult where
  chatId : String
  chatName : String
deriving Repr, DecidableEq

/-- `markChatAsRead(chatId)`: `chat.sendSeen()` is a library call that may
fail, passed in as a parameter. -/
def markChatAsRead (sendSeen : Chat → Except String Unit) (c : WAClient)
    (chatId : String) : Except String MarkReadResult := do
  let chat ← getChatById c chatId
  let _ ← sendSeen chat
  return ⟨chatId, chat.name⟩

/-- One element of the `markAllChatsAsRead()` result array. -/
structure MarkAllEntry where
  chatId : String
  chatName : String
  success : Bool
  error : Option String
deriving Repr, DecidableEq

/-- The `for` loop of `markAllChatsAsRead()`: one entry per unread chat,
`try/catch` around each `chat.sendSeen()` recorded in the `success`/`error`
fields. -/
def markAllChatsAsReadLoop (sendSeen : Chat → Except String Unit) :
    List Chat → List MarkAllEntry
  | [] => []
  | chat :: rest =>
    (match sendSeen chat with
      | .ok _ => ⟨chat.id, chat.name, true, none⟩
      | .error e => ⟨chat.id, chat.name, false, some e⟩)
      :: markAllChatsAsReadLoop sendSeen rest

/-- `markAllChatsAsRead()`. -/
def markAllChatsAsRead (sendSeen : Chat → Except String Unit) (c : WAClient) :
    Except String (List MarkAllEntry) := do
  let chats ← getChats c
  let unreadChats := chats.filter (fun chat => chat.unreadCount > 0)
  return markAllChatsAsReadLoop sendSeen unreadChats

/-- Model of the library's `chat.sendMessage(text)` / `client.sendMessage`:
the sent message object it resolves with (authored by self). -/
def libSendMessage (chatId : String) (text : String) : Message :=
  ⟨"sent-" ++ chatId, some text, 0, true⟩

/-- `sendMessage(chatId, message)`. -/
def sendMessage (c : WAClient) (chatId : String) (text : String) :
    Except String Message := do
  let chat ← getChatById c chatId
  return libSendMessage chat.id text

/-- `sendMessageToSelf(message)`: direct readiness check, then a library send
to `clientInfo.wid._serialized`; accessing a null `clientInfo` would throw. -/
def sendMessageToSelf (c : WAClient) (text : String) : Except String Message :=
  if !c.isReady then .error notReadyErr
  else
    match c.clientInfo with
    | some info => .ok (libSendMessage info.widSerialized text)
    | none => .error "TypeError: clientInfo is null"

/-- Lower-casing a string character by character (JS `toLowerCase`). -/
def lowerChars (s : String) : List Char := s.data.map Char.toLower

/-- JS `s.toLowerCase().includes(sub.toLowerCase())`: case-insensitive
substring containment. -/
def strIncludes (s sub : String) : Bool :=
  decide (lowerChars sub <:+: lowerChars s)

/-- The filter predicate of `searchMessages`:
`msg.body && msg.body.toLowerCase().includes(query.toLowerCase())`.
A `body` of `undefined` or `""` is falsy in JS, so such messages never
match. -/
def messageMatches (query : String) (msg : Message) : Bool :=
  match msg.body with
  | none => false
  | some b => !(b == "") && strIncludes b query

/-- Options object of `searchMessages`; defaults `{ limit = 50, chatId =
null }` are applied by the callers. -/
structure SearchOptions where
  limit : Nat
  chatId : Option String
deriving Repr, DecidableEq

/-- One element of the `searchMessages` result array; `matched` embeds the
source field `matches` (a Lean keyword). -/
structure SearchEntry where
  chatId : String
  chatName : String
  isGroup : Bool
  matched : List Message
deriving Repr, DecidableEq

/-- The all-chats `for` loop of `searchMessages`: one entry per chat with at
least one matching message in its fetched window. -/
def searchChatLoop (query : String) (limit : Nat) : List Chat → List SearchEntry
  | [] => []
  | chat :: rest =>
    let messages := chat.fetchMessages limit
    let matched := messages.filter (messageMatches query)
    if matched.length > 0 then
      ⟨chat.id, chat.name, chat.isGroup, matched⟩ :: searchChatLoop query limit rest
    else
      searchChatLoop query limit rest

/-- `searchMessages(query, { limit, chatId })`. -/
def searchMessages (c : WAClient) (query : String) (opts : SearchOptions) :
    Except String (List SearchEntry) :=
  match opts.chatId with
  | some cid => do
    let chat ← getChatById c cid
    let messages := chat.fetchMessages opts.limit
    let matched := messages.filter (messageMatches query)
    if matched.length > 0 then
      return [⟨chat.id, chat.name, chat.isGroup, matched⟩]
    else
      return []
  | none => do
    let chats ← getChats c
    return searchChatLoop query opts.limit chats

/-- `getContactById(contactId)`. -/
def getContactById (c : WAClient) (contactId : String) : Except String Contact :=
  if !c.isReady then .error notReadyErr
  else
    match c.contacts.find? (fun ct => ct.id == contactId) with
    | some ct => .ok ct
    | none => .error "Contact not found"

/-- `getContacts()`. -/
def getContacts (c : WAClient) : Except String (List Contact) :=
  if !c.isReady then .error notReadyErr
  else .ok c.contacts

/-- Result of `getUserInfo()`. -/
structure UserInfo where
  pushname : String
  number : String
  platform : String
  wid : String
deriving Repr, DecidableEq

/-- `getUserInfo()`: direct readiness check, then fields of `clientInfo`. -/
def getUserInfo (c : WAClient) : Except String UserInfo :=
  if !c.isReady then .error notReadyErr
  else
    match c.clientInfo with
    | some info => .ok ⟨info.pushname, info.widUser, info.platform, info.widSerialized⟩
    | none => .error "TypeError: clientInfo is null"

/-
HTTP layer (`server.js`).  Routes are embedded as functions of the server
state and the request data.  The `asyncHandler` wrapper plus the error
middleware, which turn an uncaught adapter error into a 500 response, are
folded into each route's `Except`-error branch.
-/

/-- Server-side state: the single `whatsappClient` instance and the
`lastQRCode` variable maintained by the event listeners. -/
structure ServerState where
  whatsappClient : WAClient
  lastQRCode : Option String
deriving Repr, DecidableEq

/-- The response body produced by the `requireClient` middleware when the
client is not ready (HTTP status 503). -/
structure GateResponse where
  status : Nat
  success : Bool
  error : Option String
  qrAvailable : Bool
deriving Repr, DecidableEq

/-- The 503 body of `requireClient`: `qrAvailable` is
`lastQRCode !== null`. -/
def notReadyResponse (st : ServerState) : GateResponse :=
  ⟨503, false, some "WhatsApp client is not ready. Please scan QR code first.",
    st.lastQRCode.isSome⟩

/-- A route guarded by the `requireClient` middleware: when
`isClientReady()` is false the 503 response is sent and `next()` is never
called, so the handler (and hence any adapter operation) does not run. -/
def runGuarded {α : Type} (st : ServerState) (handler : WAClient → α) :
    Except GateResponse α :=
  if !st.whatsappClient.isReady then .error (notReadyResponse st)
  else .ok (handler st.whatsappClient)

/-- One element of the `data` array of `GET /api/unread-chats`. -/
structure ChatSummary where
  id : String
  name : String
  isGroup : Bool
  unreadCount : Nat
  lastMessage : Option (Option String × Nat)
deriving Repr, DecidableEq

/-- The per-chat mapping of the `GET /api/unread-chats` handler. -/
def chatSummaryOf (chat : Chat) : ChatSummary :=
  ⟨chat.id, chat.name, chat.isGroup, chat.unreadCount,
    chat.lastMessage.map (fun msg => (msg.body, msg.timestamp))⟩

/-- The JSON body of a successful `GET /api/unread-chats` response. -/
structure UnreadChatsResponse where
  success : Bool
  count : Nat
  totalUnread : Nat
  data : List ChatSummary
deriving Repr, DecidableEq

/-- Handler of `GET /api/unread-chats` (after the readiness gate):
`totalUnread` is `result.reduce((sum, chat) => sum + chat.unreadCount, 0)`. -/
def unreadChatsRoute (c : WAClient) : Except String UnreadChatsResponse := do
  let unreadChats ← getUnreadChats c
  let result := unreadChats.map chatSummaryOf
  return ⟨true, result.length,
    result.foldl (fun sum chat => sum + chat.unreadCount) 0, result⟩

/-- JS truthiness of an optional string: `undefined` and `""` are falsy. -/
def jsTruthy : Option String → Bool
  | none => false
  | some s => !(s == "")

/-- Request body of `POST /api/send-message`; a field is `none` when absent
from the JSON body. -/
structure SendBody where
  chatId : Option String
  message : Option String
deriving Repr, DecidableEq

/-- Observable outcome of the `POST /api/send-message` route.
`adapterCalled` records whether the route reached any adapter operation. -/
structure SendRouteResult where
  status : Nat
  success : Bool
  error : Option String
  adapterCalled : Bool
  messageId : Option String
  timestamp : Option Nat
deriving Repr, DecidableEq

/-- The 400 body `{ success: false, error: 'Both chatId and message are
required' }`. -/
def sendValidationError : SendRouteResult :=
  ⟨400, false, some "Both chatId and message are required", false, none, none⟩

/-- The delegation part of `POST /api/send-message`: `getChatById` then
`sendMessage`; an adapter error becomes a 500 via the error middleware. -/
def sendDelegate (c : WAClient) (chatId : String) (text : String) :
    SendRouteResult :=
  match getChatById c chatId with
  | .error e => ⟨500, false, some e, true, none, none⟩
  | .ok _ =>
    match sendMessage c chatId text with
    | .error e => ⟨500, false, some e, true, none, none⟩
    | .ok sent => ⟨200, true, none, true, some sent.id, some sent.timestamp⟩

/-- Handler of `POST /api/send-message` (after the readiness gate):
`if (!chatId || !message)` short-circuits with the 400 body; in the `else`
branch both fields are truthy, so the `getD` defaults never apply. -/
def sendMessageRoute (c : WAClient) (body : SendBody) : SendRouteResult :=
  if !jsTruthy body.chatId || !jsTruthy body.message then
    sendValidationError
  else
    sendDelegate c (body.chatId.getD "") (body.message.getD "")

/-- Accumulated decimal value of a digit list (JS `parseInt` digit loop). -/
def digitsVal (cs : List Char) : Nat :=
  cs.foldl (fun acc ch => acc * 10 + (ch.toNat - '0'.toNat)) 0

/-- Model of the JS built-in `parseInt` on a string: skip leading
whitespace, read an optional sign and then leading decimal digits; `none`
stands for `NaN` (no digits found). -/
def jsParseInt (s : String) : Option Int :=
  let cs := s.data.dropWhile (fun ch => ch == ' ' || ch == '\t' || ch == '\n')
  let signed : Int × List Char :=
    match cs with
    | '-' :: rest => (-1, rest)
    | '+' :: rest => (1, rest)
    | _ => (1, cs)
  let ds := signed.2.takeWhile Char.isDigit
  if ds.isEmpty then none
  else some (signed.1 * (digitsVal ds : Int))

/-- The `limit` computation of `GET /api/chats/:chatId/messages`:
`parseInt(req.query.limit) || 50`.  An absent parameter makes `parseInt`
return `NaN` (here `none`), and `NaN` and `0` are both falsy, so `||`
replaces them with 50. -/
def effectiveLimit (limitParam : Option String) : Int :=
  match limitParam.bind jsParseInt with
  | none => 50
  | some n => if n = 0 then 50 else n

/-- Query string of `GET /api/search`; a parameter is `none` when absent. -/
structure SearchQuery where
  query : Option String
  limit : Option String
  chatId : Option String
deriving Repr, DecidableEq

/-- Observable outcome of the `GET /api/search` route. -/
structure SearchRouteResult where
  status : Nat
  success : Bool
  error : Option String
  adapterCalled : Bool
  results : Option (List SearchEntry)
deriving Repr, DecidableEq

/-- The 400 body `{ success: false, error: 'query parameter is required' }`. -/
def searchValidationError : SearchRouteResult :=
  ⟨400, false, some "query parameter is required", false, none⟩

/-- Handler of `GET /api/search` (after the readiness gate): `if (!query)`
short-circuits with the 400 body before any adapter call; otherwise it calls
`searchMessages(query, { limit: parseInt(limit), chatId: chatId || null })`.
The destructuring default `limit = 50` applies only when the parameter is
absent; a non-numeric `limit` yields `NaN`, modelled here as 0. -/
def searchRoute (c : WAClient) (q : SearchQuery) : SearchRouteResult :=
  if !jsTruthy q.query then
    searchValidationError
  else
    let lim : Nat :=
      match q.limit with
      | none => 50
      | some s => match jsParseInt s with
        | some n => n.toNat
        | none => 0
    let cid : Option String :=
      match q.chatId with
      | none => none
      | some s => if s == "" then none else some s
    match searchMessages c (q.query.getD "") ⟨lim, cid⟩ with
    | .error e => ⟨500, false, some e, true, none⟩
    | .ok results => ⟨200, true, none, true, some results⟩

/-
Per-chat characterizations of the loop bodies, and concrete data used by the
witnesses.
-/

/-- Per-chat characterization of the `getAllUnreadMessages` loop body:
`some` entry for an unread chat whose filtered message list is non-empty,
`none` otherwise. -/
def unreadEntryOf (chat : Chat) : Option UnreadEntry :=
  if chat.unreadCount > 0 then
    let unreadMessages :=
      (chat.fetchMessages chat.unreadCount).filter (fun msg => !msg.fromMe)
    if unreadMessages.length > 0 then
      some ⟨chat.id, chat.name, chat.isGroup, unreadMessages.length, unreadMessages⟩
    else none
  else none

/-- Per-chat characterization of the `searchMessages` loop body. -/
def searchEntryOf (query : String) (limit : Nat) (chat : Chat) :
    Option SearchEntry :=
  let matched := (chat.fetchMessages limit).filter (messageMatches query)
  if matched.length > 0 then some ⟨chat.id, chat.name, chat.isGroup, matched⟩
  else none

/-- Per-chat characterization of the `markAllChatsAsRead` loop body. -/
def markEntryOf (sendSeen : Chat → Except String Unit) (chat : Chat) :
    MarkAllEntry :=
  match sendSeen chat with
  | .ok _ => ⟨chat.id, chat.name, true, none⟩
  | .error e => ⟨chat.id, chat.name, false, some e⟩

/-- Whether a `sendSeen` call succeeded. -/
def isOkb : Except String Unit → Bool
  | .ok _ => true
  | .error _ => false

/-- Modelled from the spec: the match notion of the specification sentence
for `searchMessages` — the message's body contains the query as a
case-insensitive substring, with no JS truthiness guard on the body.  Used
only to compare the claim's wording with `messageMatches`. -/
def specContains (query : String) (msg : Message) : Bool :=
  match msg.body with
  | none => false
  | some b => strIncludes b query

/-- Concrete client info used by the witnesses. -/
def wInfo : ClientInfo := ⟨"Me", "15550001111", "android", "15550001111@c.us"⟩

/-- A message from another party. -/
def wMsgA : Message := ⟨"m1", some "hi there", 100, false⟩

/-- A self-authored message. -/
def wMsgSelf : Message := ⟨"m2", some "my note", 101, true⟩

/-- A message from another party in a second chat. -/
def wMsgC : Message := ⟨"m3", some "yo", 102, false⟩

/-- A chat with unread count 2 whose latest two messages include one
self-authored message. -/
def wChatA : Chat := ⟨"chatA", "Alice", false, 2, [wMsgA, wMsgSelf], some wMsgA⟩

/-- A fully read chat. -/
def wChatB : Chat := ⟨"chatB", "Bob", false, 0, [], none⟩

/-- A second unread chat. -/
def wChatC : Chat := ⟨"chatC", "Carol", false, 1, [wMsgC], some wMsgC⟩

/-- A ready client with one unread chat and one read chat. -/
def wClient : WAClient := ⟨true, [wChatA, wChatB], [], some wInfo, none⟩

/-- A ready client with two unread chats. -/
def wClient2 : WAClient := ⟨true, [wChatA, wChatC], [], some wInfo, none⟩

/-- A `sendSeen` model failing exactly on chat `chatA`. -/
def failOnA : Chat → Except String Unit :=
  fun chat => if chat.id == "chatA" then .error "boom" else .ok ()

/-- A client that is not ready. -/
def notReadyClient : WAClient := ⟨false, [wChatA], [], none, some "QRDATA"⟩

/-- Server state while pairing is pending. -/
def stNotReady : ServerState := ⟨notReadyClient, some "QRDATA"⟩

/-- A message whose body is the empty string (falsy in JS). -/
def emptyBodyMsg : Message := ⟨"m0", some "", 5, false⟩

/-- A chat whose only message has an empty body. -/
def emptyBodyChat : Chat :=
  ⟨"chatE", "Empty", false, 0, [emptyBodyMsg], some emptyBodyMsg⟩

/-- A ready client containing only `emptyBodyChat`. -/
def cexClient : WAClient := ⟨true, [emptyBodyChat], [], some wInfo, none⟩

/-
Helper lemmas: the accumulator loops coincide with `filterMap`/`map` of
their per-chat bodies.
-/

/-- Accumulator form of the `getAllUnreadMessages` loop. -/
theorem getAllUnreadMessagesLoop_eq (chats : List Chat) :
    ∀ acc, getAllUnreadMessagesLoop chats acc
      = acc ++ chats.filterMap unreadEntryOf := by
  induction chats with
  | nil => intro acc; simp [getAllUnreadMessagesLoop]
  | cons chat rest ih =>
    intro acc
    simp only [getAllUnreadMessagesLoop, List.filterMap_cons, unreadEntryOf]
    by_cases h1 : chat.unreadCount > 0
    · by_cases h2 : ((chat.fetchMessages chat.unreadCount).filter
        (fun msg => !msg.fromMe)).length > 0
      · simp [h1, h2, ih]
      · simp [h1, h2, ih]
    · simp [h1, ih]

/-- The `searchMessages` all-chats loop is a `filterMap`. -/
theorem searchChatLoop_eq (query : String) (limit : Nat) (chats : List Chat) :
    searchChatLoop query limit chats
      = chats.filterMap (searchEntryOf query limit) := by
  induction chats with
  | nil => simp [searchChatLoop]
  | cons chat rest ih =>
    simp only [searchChatLoop, List.filterMap_cons, searchEntryOf]
    by_cases h : ((chat.fetchMessages limit).filter (messageMatches query)).length > 0
    · simp [h, ih]
    · simp [h, ih]

/-- The `markAllChatsAsRead` loop is a `map`. -/
theorem markAllChatsAsReadLoop_eq (sendSeen : Chat → Except String Unit)
    (chats : List Chat) :
    markAllChatsAsReadLoop sendSeen chats = chats.map (markEntryOf sendSeen) := by
  induction chats with
  | nil => rfl
  | cons chat rest ih =>
    cases h : sendSeen chat <;>
      simp [markAllChatsAsReadLoop, markEntryOf, h, ih]

/-- What a `some` result of `unreadEntryOf` says about the entry. -/
theorem unreadEntryOf_some (chat : Chat) (e : UnreadEntry)
    (h : unreadEntryOf chat = some e) :
    chat.unreadCount > 0 ∧
    e.messages = (chat.fetchMessages chat.unreadCount).filter (fun msg => !msg.fromMe) ∧
    e.messages ≠ [] ∧
    e.unreadCount = e.messages.length ∧
    e.chatId = chat.id := by
  unfold unreadEntryOf at h
  by_cases h1 : chat.unreadCount > 0
  · simp only [h1, if_true] at h
    by_cases h2 : ((chat.fetchMessages chat.unreadCount).filter
      (fun msg => !msg.fromMe)).length > 0
    · simp only [h2, if_true, Option.some.injEq] at h
      subst h
      exact ⟨h1, rfl, List.length_pos.mp h2, rfl, rfl⟩
    · simp [h2] at h
  · simp [h1] at h

/-- C1: every call of `getAllUnreadMessages` on which it succeeds returns
exactly one entry per chat with `unreadCount > 0` whose filtered message
list — the up-to-`unreadCount` most recent messages with the self-authored
ones removed — is non-empty; chats with an empty filtered list are omitted,
and no message in the result is authored by self. -/
theorem getAllUnreadMessages_spec (c : WAClient) (r : List UnreadEntry)
    (h : getAllUnreadMessages c = .ok r) :
    r = c.chats.filterMap unreadEntryOf ∧
    (∀ e ∈ r, e.messages ≠ []) ∧
    (∀ e ∈ r, ∀ msg ∈ e.messages, msg.fromMe = false) := by
  have hr : r = c.chats.filterMap unreadEntryOf := by
    unfold getAllUnreadMessages getChats at h
    cases hR : c.isReady with
    | false => rw [hR] at h; simp at h
    | true =>
      rw [hR] at h
      simp [getAllUnreadMessagesLoop_eq] at h
      exact h.symm
  refine ⟨hr, ?_, ?_⟩
  · intro e he
    rw [hr] at he
    obtain ⟨chat, _, hc⟩ := List.mem_filterMap.mp he
    exact (unreadEntryOf_some chat e hc).2.2.1
  · intro e he msg hm
    rw [hr] at he
    obtain ⟨chat, _, hc⟩ := List.mem_filterMap.mp he
    rw [(unreadEntryOf_some chat e hc).2.1] at hm
    have := List.of_mem_filter hm
    simpa using this

/-- Witness for C1 at a concrete client: chat `chatA` has unread count 2,
its latest two messages are one foreign and one self-authored message, and
chat `chatB` is fully read. -/
theorem getAllUnreadMessages_spec_witness :
    ([⟨"chatA", "Alice", false, 1, [wMsgA]⟩] : List UnreadEntry)
        = wClient.chats.filterMap unreadEntryOf ∧
    (∀ e ∈ ([⟨"chatA", "Alice", false, 1, [wMsgA]⟩] : List UnreadEntry),
      e.messages ≠ []) ∧
    (∀ e ∈ ([⟨"chatA", "Alice", false, 1, [wMsgA]⟩] : List UnreadEntry),
      ∀ msg ∈ e.messages, msg.fromMe = false) :=
  getAllUnreadMessages_spec wClient [⟨"chatA", "Alice", false, 1, [wMsgA]⟩] rfl

/-- Reduction of an `Except` bind on a success value. -/
theorem except_bind_ok {ε α β : Type} (a : α) (f : α → Except ε β) :
    (Except.ok a >>= f : Except ε β) = f a := rfl

/-- Reduction of an `Except` bind on an error value. -/
theorem except_bind_error {ε α β : Type} (e : ε) (f : α → Except ε β) :
    (Except.error e >>= f : Except ε β) = Except.error e := rfl

/-- What a `some` result of `searchEntryOf` says about the entry. -/
theorem searchEntryOf_some (query : String) (limit : Nat) (chat : Chat)
    (e : SearchEntry) (h : searchEntryOf query limit chat = some e) :
    e.matched = (chat.fetchMessages limit).filter (messageMatches query) ∧
    e.matched ≠ [] ∧
    e.chatId = chat.id := by
  unfold searchEntryOf at h
  by_cases hl : ((chat.fetchMessages limit).filter (messageMatches query)).length > 0
  · simp only [hl, if_true, Option.some.injEq] at h
    subst h
    exact ⟨rfl, List.length_pos.mp hl, rfl⟩
  · simp [hl] at h

/-- Unfolding of the `searchMessages` filter predicate: a match is a
present, non-empty body containing the query case-insensitively. -/
theorem messageMatches_iff (query : String) (msg : Message) :
    messageMatches query msg = true ↔
      ∃ b, msg.body = some b ∧ b ≠ "" ∧ strIncludes b query = true := by
  cases hb : msg.body with
  | none => simp [messageMatches, hb]
  | some b => simp [messageMatches, hb]

/-- C2 counterexample: with the empty query, `emptyBodyChat` contains a
scanned message whose body contains the query as a case-insensitive
substring (the empty string is a substring of every string), yet
`searchMessages` returns no entry for that chat — the JS truthiness guard
`msg.body &&` rejects an empty body. -/
theorem searchMessages_empty_body_cex :
    searchMessages cexClient "" ⟨50, none⟩ = .ok [] ∧
    emptyBodyChat ∈ cexClient.chats ∧
    emptyBodyMsg ∈ emptyBodyChat.fetchMessages 50 ∧
    specContains "" emptyBodyMsg = true := by
  refine ⟨rfl, ?_, ?_, rfl⟩ <;> decide

/-- C2 (amended): a successful `searchMessages(query, {limit, chatId})`
returns exactly the chats having, among their up-to-`limit` most recent
messages, at least one whose body is present, non-empty and contains the
query as a case-insensitive substring; all chats are scanned when `chatId`
is absent, only that chat when it is given, and a chat with zero matching
messages is absent from the result. -/
theorem searchMessages_truthy_spec (c : WAClient) (query : String)
    (opts : SearchOptions) (r : List SearchEntry)
    (h : searchMessages c query opts = .ok r) :
    (∀ e ∈ r, e.matched ≠ [] ∧ ∀ msg ∈ e.matched,
      ∃ b, msg.body = some b ∧ b ≠ "" ∧ strIncludes b query = true) ∧
    (opts.chatId = none → r = c.chats.filterMap (searchEntryOf query opts.limit)) ∧
    (∀ cid, opts.chatId = some cid →
      ∃ chat, getChatById c cid = .ok chat ∧
        r = (searchEntryOf query opts.limit chat).toList) := by
  obtain ⟨limit, cid?⟩ := opts
  cases cid? with
  | none =>
    have hr : r = c.chats.filterMap (searchEntryOf query limit) := by
      unfold searchMessages getChats at h
      cases hR : c.isReady with
      | false => rw [hR] at h; simp at h
      | true =>
        rw [hR] at h
        simp [searchChatLoop_eq] at h
        exact h.symm
    refine ⟨?_, fun _ => hr, ?_⟩
    · intro e he
      rw [hr] at he
      obtain ⟨chat, _, hc⟩ := List.mem_filterMap.mp he
      obtain ⟨hm, hne, _⟩ := searchEntryOf_some query limit chat e hc
      refine ⟨hne, ?_⟩
      intro msg hmsg
      rw [hm] at hmsg
      exact (messageMatches_iff query msg).mp (List.of_mem_filter hmsg)
    · intro cid hcid
      exact absurd hcid (by simp)
  | some cid =>
    simp only [searchMessages] at h
    cases hg : getChatById c cid with
    | error e =>
      rw [hg, except_bind_error] at h
      exact absurd h (by simp)
    | ok chat =>
      rw [hg, except_bind_ok] at h
      by_cases hl : ((chat.fetchMessages limit).filter (messageMatches query)).length > 0
      · rw [if_pos hl] at h
        have hr := Except.ok.inj h
        subst hr
        refine ⟨?_, by simp, ?_⟩
        · intro e he
          simp only [List.mem_singleton] at he
          subst he
          refine ⟨by simpa using List.length_pos.mp hl, ?_⟩
          intro msg hmsg
          exact (messageMatches_iff query msg).mp (List.of_mem_filter hmsg)
        · intro cid2 hcid2
          obtain rfl : cid = cid2 := by simpa using hcid2
          refine ⟨chat, hg, ?_⟩
          unfold searchEntryOf
          simp [hl]
      · rw [if_neg hl] at h
        have hr := Except.ok.inj h
        subst hr
        refine ⟨by simp, by simp, ?_⟩
        intro cid2 hcid2
        obtain rfl : cid = cid2 := by simpa using hcid2
        refine ⟨chat, hg, ?_⟩
        unfold searchEntryOf
        simp [hl]

/-- Witness for C2 (amended) at a concrete client: query `"hi"` matches the
body `"hi there"` in chat `chatA` and nothing in chat `chatB`. -/
theorem searchMessages_truthy_spec_witness :
    (∀ e ∈ ([⟨"chatA", "Alice", false, [wMsgA]⟩] : List SearchEntry),
      e.matched ≠ [] ∧ ∀ msg ∈ e.matched,
        ∃ b, msg.body = some b ∧ b ≠ "" ∧ strIncludes b "hi" = true) ∧
    ((⟨50, none⟩ : SearchOptions).chatId = none →
      ([⟨"chatA", "Alice", false, [wMsgA]⟩] : List SearchEntry)
        = wClient.chats.filterMap
            (searchEntryOf "hi" (⟨50, none⟩ : SearchOptions).limit)) ∧
    (∀ cid, (⟨50, none⟩ : SearchOptions).chatId = some cid →
      ∃ chat, getChatById wClient cid = .ok chat ∧
        ([⟨"chatA", "Alice", false, [wMsgA]⟩] : List SearchEntry)
          = (searchEntryOf "hi" (⟨50, none⟩ : SearchOptions).limit chat).toList) :=
  searchMessages_truthy_spec wClient "hi" ⟨50, none⟩
    [⟨"chatA", "Alice", false, [wMsgA]⟩] rfl

/-- C3: a successful `markAllChatsAsRead` returns one result entry per chat
with `unreadCount > 0` at call time (so the result length equals the number
of unread chats), and every entry's outcome is determined by that chat's own
`sendSeen` call alone, so a failure on one chat does not prevent the
attempts on the remaining chats. -/
theorem markAllChatsAsRead_spec (sendSeen : Chat → Except String Unit)
    (c : WAClient) (rs : List MarkAllEntry)
    (h : markAllChatsAsRead sendSeen c = .ok rs) :
    rs.length = (c.chats.filter (fun chat => chat.unreadCount > 0)).length ∧
    rs = (c.chats.filter (fun chat => chat.unreadCount > 0)).map (markEntryOf sendSeen) ∧
    (∀ i (h1 : i < rs.length)
        (h2 : i < (c.chats.filter (fun chat => chat.unreadCount > 0)).length),
      (rs.get ⟨i, h1⟩).success
        = isOkb (sendSeen ((c.chats.filter (fun chat => chat.unreadCount > 0)).get ⟨i, h2⟩))) := by
  have hr : rs
      = (c.chats.filter (fun chat => chat.unreadCount > 0)).map (markEntryOf sendSeen) := by
    unfold markAllChatsAsRead getChats at h
    cases hR : c.isReady with
    | false => rw [hR] at h; simp at h
    | true =>
      rw [hR] at h
      simp [markAllChatsAsReadLoop_eq] at h
      exact h.symm
  refine ⟨by rw [hr]; simp, hr, ?_⟩
  intro i h1 h2
  subst hr
  have hmap : (List.map (markEntryOf sendSeen)
        (c.chats.filter (fun chat => chat.unreadCount > 0))).get ⟨i, h1⟩
      = markEntryOf sendSeen
          ((c.chats.filter (fun chat => chat.unreadCount > 0)).get ⟨i, h2⟩) := by
    simp
  rw [hmap]
  unfold markEntryOf
  cases hs : sendSeen ((c.chats.filter (fun chat => chat.unreadCount > 0)).get ⟨i, h2⟩) <;>
    simp [isOkb]

/-- Witness for C3 at a concrete client with two unread chats, where
`sendSeen` fails on the first chat and succeeds on the second: both entries
are present and the second still records success. -/
theorem markAllChatsAsRead_spec_witness :
    ([⟨"chatA", "Alice", false, some "boom"⟩,
      ⟨"chatC", "Carol", true, none⟩] : List MarkAllEntry).length
        = (wClient2.chats.filter (fun chat => chat.unreadCount > 0)).length ∧
    ([⟨"chatA", "Alice", false, some "boom"⟩,
      ⟨"chatC", "Carol", true, none⟩] : List MarkAllEntry)
        = (wClient2.chats.filter (fun chat => chat.unreadCount > 0)).map (markEntryOf failOnA) ∧
    (∀ i (h1 : i < ([⟨"chatA", "Alice", false, some "boom"⟩,
          ⟨"chatC", "Carol", true, none⟩] : List MarkAllEntry).length)
        (h2 : i < (wClient2.chats.filter (fun chat => chat.unreadCount > 0)).length),
      (([⟨"chatA", "Alice", false, some "boom"⟩,
          ⟨"chatC", "Carol", true, none⟩] : List MarkAllEntry).get ⟨i, h1⟩).success
        = isOkb (failOnA ((wClient2.chats.filter (fun chat => chat.unreadCount > 0)).get ⟨i, h2⟩))) :=
  markAllChatsAsRead_spec failOnA wClient2
    [⟨"chatA", "Alice", false, some "boom"⟩, ⟨"chatC", "Carol", true, none⟩] rfl

/-- The `reduce` of the unread-chats handler is the sum of the unread
counts. -/
theorem foldl_add_unreadCount (l : List ChatSummary) :
    ∀ a : Nat, l.foldl (fun sum chat => sum + chat.unreadCount) a
      = a + (l.map (fun chat => chat.unreadCount)).sum := by
  induction l with
  | nil => intro a; simp
  | cons chat rest ih => intro a; simp [ih, Nat.add_assoc]

/-- C4: `getUnreadChats` returns exactly the chats with `unreadCount > 0`
(a chat with `unreadCount = 0` never appears), and the
`GET /api/unread-chats` handler reports `totalUnread` equal to the sum of
`unreadCount` over the returned chats. -/
theorem unreadChatsRoute_spec (c : WAClient) (r : UnreadChatsResponse)
    (h : unreadChatsRoute c = .ok r) :
    getUnreadChats c = .ok (c.chats.filter (fun chat => chat.unreadCount > 0)) ∧
    (∀ chat ∈ c.chats, chat.unreadCount = 0 →
      chat ∉ c.chats.filter (fun chat2 => chat2.unreadCount > 0)) ∧
    r.data = (c.chats.filter (fun chat => chat.unreadCount > 0)).map chatSummaryOf ∧
    r.totalUnread = (r.data.map (fun s => s.unreadCount)).sum := by
  have hready : c.isReady = true := by
    cases hR : c.isReady with
    | true => rfl
    | false =>
      unfold unreadChatsRoute getUnreadChats getChats at h
      rw [hR] at h
      simp at h
  have hg : getUnreadChats c
      = .ok (c.chats.filter (fun chat => chat.unreadCount > 0)) := by
    unfold getUnreadChats getChats
    rw [hready]
    rfl
  unfold unreadChatsRoute at h
  rw [hg, except_bind_ok] at h
  have hr := Except.ok.inj h
  subst hr
  refine ⟨hg, ?_, rfl, ?_⟩
  · intro chat _ h0 hmem
    have := (List.mem_filter.mp hmem).2
    simp [h0] at this
  · show (List.map chatSummaryOf _).foldl (fun sum chat => sum + chat.unreadCount) 0 = _
    rw [foldl_add_unreadCount]
    simp

/-- Witness for C4, realizing the spec's example: chats `chatA` (unread 2)
and `chatB` (unread 0) give a response listing only `chatA` with
`totalUnread = 2`. -/
theorem unreadChatsRoute_spec_witness :
    getUnreadChats wClient
        = .ok (wClient.chats.filter (fun chat => chat.unreadCount > 0)) ∧
    (∀ chat ∈ wClient.chats, chat.unreadCount = 0 →
      chat ∉ wClient.chats.filter (fun chat2 => chat2.unreadCount > 0)) ∧
    (⟨true, 1, 2, [⟨"chatA", "Alice", false, 2, some (some "hi there", 100)⟩]⟩
        : UnreadChatsResponse).data
      = (wClient.chats.filter (fun chat => chat.unreadCount > 0)).map chatSummaryOf ∧
    (⟨true, 1, 2, [⟨"chatA", "Alice", false, 2, some (some "hi there", 100)⟩]⟩
        : UnreadChatsResponse).totalUnread
      = ((⟨true, 1, 2, [⟨"chatA", "Alice", false, 2, some (some "hi there", 100)⟩]⟩
          : UnreadChatsResponse).data.map (fun s => s.unreadCount)).sum :=
  unreadChatsRoute_spec wClient
    ⟨true, 1, 2, [⟨"chatA", "Alice", false, 2, some (some "hi there", 100)⟩]⟩ rfl

/-- C5: every route guarded by the `requireClient` middleware answers a
request made while the client is not ready with a 503 response whose body
has `success = false` and a `qrAvailable` flag reflecting whether a pairing
code is pending; the handler — and hence any adapter operation — is never
invoked, for any handler whatsoever. -/
theorem requireClient_gate_spec (st : ServerState) {α : Type}
    (handler : WAClient → α) (h : st.whatsappClient.isReady = false) :
    runGuarded st handler
      = .error ⟨503, false,
          some "WhatsApp client is not ready. Please scan QR code first.",
          st.lastQRCode.isSome⟩ := by
  unfold runGuarded notReadyResponse
  rw [h]
  rfl

/-- Witness for C5: a not-ready server state with a pending QR code blocks
a handler that would call the adapter, reporting `qrAvailable = true`. -/
theorem requireClient_gate_spec_witness :
    runGuarded stNotReady (fun cl => getChats cl)
      = .error ⟨503, false,
          some "WhatsApp client is not ready. Please scan QR code first.",
          true⟩ :=
  requireClient_gate_spec stNotReady (fun cl => getChats cl) rfl

/-- C6: every adapter operation other than initialization fails with the
"Client is not ready" error whenever the readiness flag is false, either by
a direct check or through delegation to `getChats`/`getChatById`. -/
theorem adapter_ops_not_ready_spec (c : WAClient) (h : c.isReady = false) :
    getChats c = .error notReadyErr ∧
    (∀ cid, getChatById c cid = .error notReadyErr) ∧
    getUnreadChats c = .error notReadyErr ∧
    getAllUnreadMessages c = .error notReadyErr ∧
    (∀ cid limit, getMessages c cid limit = .error notReadyErr) ∧
    (∀ cid, getUnreadMessagesFromChat c cid = .error notReadyErr) ∧
    (∀ sendSeen cid, markChatAsRead sendSeen c cid = .error notReadyErr) ∧
    (∀ sendSeen, markAllChatsAsRead sendSeen c = .error notReadyErr) ∧
    (∀ cid text, sendMessage c cid text = .error notReadyErr) ∧
    (∀ text, sendMessageToSelf c text = .error notReadyErr) ∧
    (∀ query opts, searchMessages c query opts = .error notReadyErr) ∧
    (∀ cid, getContactById c cid = .error notReadyErr) ∧
    getContacts c = .error notReadyErr ∧
    getUserInfo c = .error notReadyErr := by
  have hchats : getChats c = .error notReadyErr := by
    unfold getChats; rw [h]; rfl
  have hbyid : ∀ cid, getChatById c cid = .error notReadyErr := by
    intro cid; unfold getChatById; rw [h]; rfl
  refine ⟨hchats, hbyid, ?_, ?_, ?_, ?_, ?_, ?_, ?_, ?_, ?_, ?_, ?_, ?_⟩
  · unfold getUnreadChats; rw [hchats]; rfl
  · unfold getAllUnreadMessages; rw [hchats]; rfl
  · intro cid limit; unfold getMessages; rw [hbyid cid]; rfl
  · intro cid; unfold getUnreadMessagesFromChat; rw [hbyid cid]; rfl
  · intro sendSeen cid; unfold markChatAsRead; rw [hbyid cid]; rfl
  · intro sendSeen; unfold markAllChatsAsRead; rw [hchats]; rfl
  · intro cid text; unfold sendMessage; rw [hbyid cid]; rfl
  · intro text; unfold sendMessageToSelf; rw [h]; rfl
  · intro query opts
    cases hc : opts.chatId with
    | some cid => simp only [searchMessages, hc]; rw [hbyid cid]; rfl
    | none => simp only [searchMessages, hc]; rw [hchats]; rfl
  · intro cid; unfold getContactById; rw [h]; rfl
  · unfold getContacts; rw [h]; rfl
  · unfold getUserInfo; rw [h]; rfl

/-- Witness for C6 at a concrete not-ready client, sampling a directly
checking operation, a delegating operation and both search modes. -/
theorem adapter_ops_not_ready_spec_witness :
    getChats notReadyClient = .error notReadyErr ∧
    sendMessageToSelf notReadyClient "hello" = .error notReadyErr ∧
    searchMessages notReadyClient "abc" ⟨50, none⟩ = .error notReadyErr ∧
    searchMessages notReadyClient "abc" ⟨50, some "chatA"⟩ = .error notReadyErr := by
  obtain ⟨h1, _, _, _, _, _, _, _, _, h10, h11, _, _, _⟩ :=
    adapter_ops_not_ready_spec notReadyClient rfl
  exact ⟨h1, h10 "hello", h11 "abc" ⟨50, none⟩, h11 "abc" ⟨50, some "chatA"⟩⟩

/-- Every branch of the delegation part of the send route reaches the
adapter. -/
theorem sendDelegate_adapterCalled (c : WAClient) (cid text : String) :
    (sendDelegate c cid text).adapterCalled = true := by
  unfold sendDelegate
  cases h1 : getChatById c cid with
  | error e => simp
  | ok chat =>
    cases h2 : sendMessage c cid text with
    | error e => simp [h2]
    | ok sent => simp [h2]

/-- C7 counterexample: a request body with both fields present but `chatId`
equal to the empty string is answered 400 and never reaches the adapter,
although the claim states that a request with both send fields present
proceeds to delegate. -/
theorem sendMessageRoute_present_empty_cex :
    (⟨some "", some "hi"⟩ : SendBody).chatId ≠ none ∧
    (⟨some "", some "hi"⟩ : SendBody).message ≠ none ∧
    sendMessageRoute wClient ⟨some "", some "hi"⟩ = sendValidationError ∧
    (sendMessageRoute wClient ⟨some "", some "hi"⟩).status = 400 ∧
    (sendMessageRoute wClient ⟨some "", some "hi"⟩).adapterCalled = false := by
  refine ⟨by simp, by simp, rfl, rfl, rfl⟩

/-- C7 (amended): `POST /api/send-message` with a missing-or-empty `chatId`
or `message`, and `GET /api/search` with a missing-or-empty `query`
parameter, answer 400 with `success = false` before any adapter operation
is invoked; when both send fields are present and non-empty the route
proceeds to delegate. -/
theorem route_validation_spec (c : WAClient) (body : SendBody) (q : SearchQuery) :
    (jsTruthy body.chatId = false ∨ jsTruthy body.message = false →
      sendMessageRoute c body = sendValidationError ∧
      (sendMessageRoute c body).status = 400 ∧
      (sendMessageRoute c body).success = false ∧
      (sendMessageRoute c body).adapterCalled = false) ∧
    (jsTruthy q.query = false →
      searchRoute c q = searchValidationError ∧
      (searchRoute c q).status = 400 ∧
      (searchRoute c q).success = false ∧
      (searchRoute c q).adapterCalled = false) ∧
    (jsTruthy body.chatId = true → jsTruthy body.message = true →
      (sendMessageRoute c body).adapterCalled = true) := by
  refine ⟨?_, ?_, ?_⟩
  · intro hfalsy
    have hv : sendMessageRoute c body = sendValidationError := by
      unfold sendMessageRoute
      rcases hfalsy with hf | hf <;> simp [hf]
    exact ⟨hv, by rw [hv]; rfl, by rw [hv]; rfl, by rw [hv]; rfl⟩
  · intro hq
    have hv : searchRoute c q = searchValidationError := by
      unfold searchRoute
      simp [hq]
    exact ⟨hv, by rw [hv]; rfl, by rw [hv]; rfl, by rw [hv]; rfl⟩
  · intro h1 h2
    have hd : sendMessageRoute c body
        = sendDelegate c (body.chatId.getD "") (body.message.getD "") := by
      unfold sendMessageRoute
      rw [h1, h2]
      rfl
    rw [hd]
    exact sendDelegate_adapterCalled c _ _

/-- Witness for C7 (amended): a body missing `chatId` and a query string
missing `query` are rejected with the 400 bodies, while a body with both
fields non-empty reaches the adapter. -/
theorem route_validation_spec_witness :
    sendMessageRoute wClient ⟨none, some "hi"⟩ = sendValidationError ∧
    searchRoute wClient ⟨none, some "50", none⟩ = searchValidationError ∧
    (sendMessageRoute wClient ⟨some "chatA", some "hi"⟩).adapterCalled = true := by
  obtain ⟨hv, hs, -⟩ :=
    route_validation_spec wClient ⟨none, some "hi"⟩ ⟨none, some "50", none⟩
  obtain ⟨-, -, hd⟩ :=
    route_validation_spec wClient ⟨some "chatA", some "hi"⟩ ⟨none, none, none⟩
  exact ⟨(hv (Or.inl rfl)).1, (hs rfl).1, hd rfl rfl⟩

/-- C8: a successful `getUnreadMessagesFromChat(chatId)` resolves the chat
and returns the empty sequence when its `unreadCount` is zero, and
otherwise the up-to-`unreadCount` most recent messages filtered to those
not authored by self — the same per-chat logic as `getAllUnreadMessages`
(witness the agreement with `unreadEntryOf`). -/
theorem getUnreadMessagesFromChat_spec (c : WAClient) (cid : String)
    (r : List Message) (h : getUnreadMessagesFromChat c cid = .ok r) :
    ∃ chat, getChatById c cid = .ok chat ∧
      r = (chat.fetchMessages chat.unreadCount).filter (fun msg => !msg.fromMe) ∧
      (chat.unreadCount = 0 → r = []) ∧
      (r ≠ [] → unreadEntryOf chat
        = some ⟨chat.id, chat.name, chat.isGroup, r.length, r⟩) := by
  unfold getUnreadMessagesFromChat at h
  cases hg : getChatById c cid with
  | error e =>
    rw [hg, except_bind_error] at h
    exact absurd h (by simp)
  | ok chat =>
    rw [hg, except_bind_ok] at h
    refine ⟨chat, rfl, ?_⟩
    by_cases h0 : chat.unreadCount = 0
    · rw [if_pos h0] at h
      have hr := Except.ok.inj h
      subst hr
      refine ⟨?_, fun _ => rfl, fun hne => absurd rfl hne⟩
      rw [h0]
      rfl
    · rw [if_neg h0] at h
      have hr := Except.ok.inj h
      subst hr
      refine ⟨rfl, fun hz => absurd hz h0, ?_⟩
      intro hne
      have hpos : chat.unreadCount > 0 := Nat.pos_of_ne_zero h0
      have hlen : ((chat.fetchMessages chat.unreadCount).filter
          (fun msg => !msg.fromMe)).length > 0 := List.length_pos.mpr hne
      simp [unreadEntryOf, hpos, hlen]

/-- Witness for C8 at chat `chatA` of the concrete client: unread count 2,
one of the two fetched messages self-authored, result `[wMsgA]`. -/
theorem getUnreadMessagesFromChat_spec_witness :
    ∃ chat, getChatById wClient "chatA" = .ok chat ∧
      ([wMsgA] : List Message)
          = (chat.fetchMessages chat.unreadCount).filter (fun msg => !msg.fromMe) ∧
      (chat.unreadCount = 0 → ([wMsgA] : List Message) = []) ∧
      (([wMsgA] : List Message) ≠ [] → unreadEntryOf chat
        = some ⟨chat.id, chat.name, chat.isGroup, ([wMsgA] : List Message).length, [wMsgA]⟩) :=
  getUnreadMessagesFromChat_spec wClient "chatA" [wMsgA] rfl

/-- C9: in every entry of a successful `getAllUnreadMessages` result the
reported `unreadCount` equals the length of the entry's `messages` array
(the count after filtering out self-authored messages), and this can be
strictly less than the underlying chat's own `unreadCount`. -/
theorem unreadEntry_count_spec (c : WAClient) (r : List UnreadEntry)
    (h : getAllUnreadMessages c = .ok r) :
    (∀ e ∈ r, e.unreadCount = e.messages.length) ∧
    (∃ c2 r2 e chat, getAllUnreadMessages c2 = .ok r2 ∧ e ∈ r2 ∧
      chat ∈ c2.chats ∧ e.chatId = chat.id ∧ e.unreadCount < chat.unreadCount) := by
  constructor
  · intro e he
    have hr : r = c.chats.filterMap unreadEntryOf := by
      unfold getAllUnreadMessages getChats at h
      cases hR : c.isReady with
      | false => rw [hR] at h; simp at h
      | true =>
        rw [hR] at h
        simp [getAllUnreadMessagesLoop_eq] at h
        exact h.symm
    rw [hr] at he
    obtain ⟨chat, _, hc⟩ := List.mem_filterMap.mp he
    exact (unreadEntryOf_some chat e hc).2.2.2.1
  · exact ⟨wClient, [⟨"chatA", "Alice", false, 1, [wMsgA]⟩],
      ⟨"chatA", "Alice", false, 1, [wMsgA]⟩, wChatA, rfl, by simp,
      by simp [wClient], rfl, by decide⟩

/-- Witness for C9 at the concrete client: the entry for `chatA` reports
`unreadCount = 1` with one message, while the chat itself has
`unreadCount = 2`. -/
theorem unreadEntry_count_spec_witness :
    (∀ e ∈ ([⟨"chatA", "Alice", false, 1, [wMsgA]⟩] : List UnreadEntry),
      e.unreadCount = e.messages.length) ∧
    (∃ c2 r2 e chat, getAllUnreadMessages c2 = .ok r2 ∧ e ∈ r2 ∧
      chat ∈ c2.chats ∧ e.chatId = chat.id ∧ e.unreadCount < chat.unreadCount) :=
  unreadEntry_count_spec wClient [⟨"chatA", "Alice", false, 1, [wMsgA]⟩] rfl

/-- C10: in `GET /api/chats/:chatId/messages` the `limit` query parameter
is replaced by the default 50 not only when absent but whenever `parseInt`
of it yields 0 or `NaN` (a non-numeric string), because the fallback
`parseInt(req.query.limit) || 50` uses JS falsy coercion. -/
theorem chatMessages_limit_fallback_spec :
    effectiveLimit none = 50 ∧
    (∀ s, jsParseInt s = none → effectiveLimit (some s) = 50) ∧
    (∀ s, jsParseInt s = some 0 → effectiveLimit (some s) = 50) ∧
    (∀ s n, jsParseInt s = some n → n ≠ 0 → effectiveLimit (some s) = n) := by
  refine ⟨rfl, ?_, ?_, ?_⟩
  · intro s hs
    unfold effectiveLimit
    simp [hs]
  · intro s hs
    unfold effectiveLimit
    simp [hs]
  · intro s n hs hn
    unfold effectiveLimit
    simp [hs, hn]

/-- Witness for C10: a non-numeric limit and `limit=0` both fall back to
50, while `limit=25` is kept. -/
theorem chatMessages_limit_fallback_spec_witness :
    effectiveLimit (some "abc") = 50 ∧
    effectiveLimit (some "0") = 50 ∧
    effectiveLimit (some "25") = 25 := by
  obtain ⟨-, h2, h3, h4⟩ := chatMessages_limit_fallback_spec
  exact ⟨h2 "abc" rfl, h3 "0" rfl, h4 "25" 25 rfl (by decide)⟩

end WhatsappMonitor
